import Mathlib

/-!
Verification of the `enjoyable` libusb binding headers.

The repository consists of two C headers:
  * `Sources/CLibUSB/LibUSBBridge.h` — re-declares a subset of the
    libusb 1.0 API (constants, three forward-declared struct types, and
    eleven function prototypes), guarded by `LibUSBBridge_h`;
  * `Modules/LibUSB/Sources/CLibUSB/shim.h` — a conditional-include shim
    guarded by `CLibUSB_shim` that picks the system libusb header.

We embed the headers' declaration surface (macro table, typedefs,
function prototypes) and the preprocessor behaviour of the include
guards and of the shim's conditional inclusion, and prove the claimed
structural properties about them.
-/

namespace CLibUSB

/-- C types appearing in `LibUSBBridge.h` prototypes.  `structRef n`
is a reference to the (forward-declared) `struct n`. -/
inductive CType where
  | void : CType
  | int : CType
  | uint : CType
  | uint16 : CType
  | uchar : CType
  | ptr : CType → CType
  | structRef : String → CType
deriving DecidableEq, Repr

/-- True when the type is a struct type used directly (not behind a
pointer). -/
def CType.bareStruct : CType → Bool
  | .structRef _ => true
  | _ => false

/-- All struct names mentioned anywhere inside a type. -/
def CType.structNames : CType → List String
  | .ptr t => t.structNames
  | .structRef n => [n]
  | _ => []

/-- A function prototype: name, return type, and named parameters, in
source order. -/
structure FunDecl where
  name : String
  ret : CType
  params : List (String × CType)
deriving DecidableEq, Repr

/-- The shape of a prototype: its symbol name, return type and
parameter types (parameter names are not part of the C calling
surface). -/
def FunDecl.shape (d : FunDecl) : String × CType × List CType :=
  (d.name, d.ret, d.params.map Prod.snd)

/-- The `#define` table of `LibUSBBridge.h`, in source order:
macro name paired with its integer value. -/
def bridgeMacros : List (String × Int) :=
  [ ("LIBUSB_SUCCESS", 0),
    ("LIBUSB_ERROR_IO", -1),
    ("LIBUSB_ERROR_INVALID_PARAM", -2),
    ("LIBUSB_ERROR_ACCESS", -3),
    ("LIBUSB_ERROR_NO_DEVICE", -4),
    ("LIBUSB_ERROR_NOT_FOUND", -5),
    ("LIBUSB_ERROR_BUSY", -6),
    ("LIBUSB_ERROR_TIMEOUT", -7),
    ("LIBUSB_ERROR_PIPE", -8),
    ("LIBUSB_ERROR_INTERRUPTED", -10),
    ("LIBUSB_ERROR_NO_MEM", -11),
    ("LIBUSB_ERROR_NOT_SUPPORTED", -12),
    ("LIBUSB_TRANSFER_TYPE_INTERRUPT", 3),
    ("LIBUSB_ENDPOINT_IN", 0x80),
    ("LIBUSB_ENDPOINT_OUT", 0x00) ]

/-- The names of the error-kind constants of `LibUSBBridge.h`
(everything between `LIBUSB_ERROR_IO` and
`LIBUSB_ERROR_NOT_SUPPORTED`), in source order. -/
def bridgeErrorNames : List String :=
  [ "LIBUSB_ERROR_IO",
    "LIBUSB_ERROR_INVALID_PARAM",
    "LIBUSB_ERROR_ACCESS",
    "LIBUSB_ERROR_NO_DEVICE",
    "LIBUSB_ERROR_NOT_FOUND",
    "LIBUSB_ERROR_BUSY",
    "LIBUSB_ERROR_TIMEOUT",
    "LIBUSB_ERROR_PIPE",
    "LIBUSB_ERROR_INTERRUPTED",
    "LIBUSB_ERROR_NO_MEM",
    "LIBUSB_ERROR_NOT_SUPPORTED" ]

/-- Look a macro up in the bridge's `#define` table. -/
def macroValue (n : String) : Option Int :=
  (bridgeMacros.find? (fun p => p.1 = n)).map Prod.snd

/-- The struct types forward-declared (typedef of an incomplete struct)
in `LibUSBBridge.h`, in source order.  None of them is given a body
anywhere in the repository. -/
def bridgeTypedefs : List String :=
  ["libusb_context", "libusb_device", "libusb_device_handle"]

/-- A struct definition (a struct with a body).  The repository's
headers define none, so this record type has no inhabitant in
`bridgeStructDefs`. -/
structure StructDef where
  name : String
  fields : List (String × CType)
deriving DecidableEq, Repr

/-- The struct bodies defined in the repository: there are none, every
struct type is left incomplete. -/
def bridgeStructDefs : List StructDef := []

/-- The function prototypes of `LibUSBBridge.h`, in source order,
transcribed type-for-type from the header. -/
def bridgeDecls : List FunDecl :=
  [ ⟨"libusb_init", .int,
      [("ctx", .ptr (.ptr (.structRef "libusb_context")))]⟩,
    ⟨"libusb_exit", .void,
      [("ctx", .ptr (.structRef "libusb_context"))]⟩,
    ⟨"libusb_open_device_with_vid_pid",
      .ptr (.structRef "libusb_device_handle"),
      [("ctx", .ptr (.structRef "libusb_context")),
       ("vid", .uint16),
       ("pid", .uint16)]⟩,
    ⟨"libusb_close", .void,
      [("dev_handle", .ptr (.structRef "libusb_device_handle"))]⟩,
    ⟨"libusb_kernel_driver_active", .int,
      [("dev_handle", .ptr (.structRef "libusb_device_handle")),
       ("interface_number", .int)]⟩,
    ⟨"libusb_detach_kernel_driver", .int,
      [("dev_handle", .ptr (.structRef "libusb_device_handle")),
       ("interface_number", .int)]⟩,
    ⟨"libusb_attach_kernel_driver", .int,
      [("dev_handle", .ptr (.structRef "libusb_device_handle")),
       ("interface_number", .int)]⟩,
    ⟨"libusb_claim_interface", .int,
      [("dev_handle", .ptr (.structRef "libusb_device_handle")),
       ("interface_number", .int)]⟩,
    ⟨"libusb_release_interface", .int,
      [("dev_handle", .ptr (.structRef "libusb_device_handle")),
       ("interface_number", .int)]⟩,
    ⟨"libusb_interrupt_transfer", .int,
      [("dev_handle", .ptr (.structRef "libusb_device_handle")),
       ("endpoint", .uchar),
       ("data", .ptr .uchar),
       ("length", .int),
       ("actual_length", .ptr .int),
       ("timeout", .uint)]⟩,
    ⟨"libusb_reset_device", .int,
      [("dev_handle", .ptr (.structRef "libusb_device_handle"))]⟩ ]

/-- Modelled from the spec: libusb 1.0's published `enum libusb_error`
(stable since libusb 1.0), external to this repository.  Note that
libusb publishes `LIBUSB_ERROR_OVERFLOW = -8` and
`LIBUSB_ERROR_PIPE = -9`. -/
def libusbErrorEnum : List (String × Int) :=
  [ ("LIBUSB_SUCCESS", 0),
    ("LIBUSB_ERROR_IO", -1),
    ("LIBUSB_ERROR_INVALID_PARAM", -2),
    ("LIBUSB_ERROR_ACCESS", -3),
    ("LIBUSB_ERROR_NO_DEVICE", -4),
    ("LIBUSB_ERROR_NOT_FOUND", -5),
    ("LIBUSB_ERROR_BUSY", -6),
    ("LIBUSB_ERROR_TIMEOUT", -7),
    ("LIBUSB_ERROR_OVERFLOW", -8),
    ("LIBUSB_ERROR_PIPE", -9),
    ("LIBUSB_ERROR_INTERRUPTED", -10),
    ("LIBUSB_ERROR_NO_MEM", -11),
    ("LIBUSB_ERROR_NOT_SUPPORTED", -12),
    ("LIBUSB_ERROR_OTHER", -99) ]

/-- Look a constant up in libusb's published error enum. -/
def enumValue (n : String) : Option Int :=
  (libusbErrorEnum.find? (fun p => p.1 = n)).map Prod.snd

/-- Modelled from the spec: for each constant name the bridge header
defines, the value libusb 1.0 publishes for the identically named
constant.  libusb itself is external to the repository; the error
values follow libusb's published `enum libusb_error` (in particular
`LIBUSB_ERROR_PIPE = -9`, since `-8` is `LIBUSB_ERROR_OVERFLOW`), and
the transfer-type and endpoint-direction constants follow libusb's
published `enum libusb_transfer_type` and
`enum libusb_endpoint_direction`. -/
def libusbPublishedMacros : List (String × Int) :=
  [ ("LIBUSB_SUCCESS", 0),
    ("LIBUSB_ERROR_IO", -1),
    ("LIBUSB_ERROR_INVALID_PARAM", -2),
    ("LIBUSB_ERROR_ACCESS", -3),
    ("LIBUSB_ERROR_NO_DEVICE", -4),
    ("LIBUSB_ERROR_NOT_FOUND", -5),
    ("LIBUSB_ERROR_BUSY", -6),
    ("LIBUSB_ERROR_TIMEOUT", -7),
    ("LIBUSB_ERROR_PIPE", -9),
    ("LIBUSB_ERROR_INTERRUPTED", -10),
    ("LIBUSB_ERROR_NO_MEM", -11),
    ("LIBUSB_ERROR_NOT_SUPPORTED", -12),
    ("LIBUSB_TRANSFER_TYPE_INTERRUPT", 3),
    ("LIBUSB_ENDPOINT_IN", 0x80),
    ("LIBUSB_ENDPOINT_OUT", 0x00) ]

/-- Look a constant up in the published-values table. -/
def publishedValue (n : String) : Option Int :=
  (libusbPublishedMacros.find? (fun p => p.1 = n)).map Prod.snd

/-- Modelled from the spec: the libusb 1.0 API subset the spec lists,
as (symbol name, return type, parameter types), in each case with
libusb's published calling shape.  libusb's own header is external to
the repository, so the expected shapes follow the spec's enumeration
of the subset. -/
def libusbPublishedAPI : List (String × CType × List CType) :=
  [ ("libusb_init", .int,
      [.ptr (.ptr (.structRef "libusb_context"))]),
    ("libusb_exit", .void,
      [.ptr (.structRef "libusb_context")]),
    ("libusb_open_device_with_vid_pid",
      .ptr (.structRef "libusb_device_handle"),
      [.ptr (.structRef "libusb_context"), .uint16, .uint16]),
    ("libusb_close", .void,
      [.ptr (.structRef "libusb_device_handle")]),
    ("libusb_kernel_driver_active", .int,
      [.ptr (.structRef "libusb_device_handle"), .int]),
    ("libusb_detach_kernel_driver", .int,
      [.ptr (.structRef "libusb_device_handle"), .int]),
    ("libusb_attach_kernel_driver", .int,
      [.ptr (.structRef "libusb_device_handle"), .int]),
    ("libusb_claim_interface", .int,
      [.ptr (.structRef "libusb_device_handle"), .int]),
    ("libusb_release_interface", .int,
      [.ptr (.structRef "libusb_device_handle"), .int]),
    ("libusb_interrupt_transfer", .int,
      [.ptr (.structRef "libusb_device_handle"), .uchar,
       .ptr .uchar, .int, .ptr .int, .uint]),
    ("libusb_reset_device", .int,
      [.ptr (.structRef "libusb_device_handle")]) ]

/-- Outcome of preprocessing the shim's conditional-include block. -/
inductive ShimResult where
  | incl : String → ShimResult
  | buildError : String → ShimResult
deriving DecidableEq, Repr

/-- The shim's conditional inclusion, transcribed from `shim.h`:
`#if __has_include(<libusb-1.0/libusb.h>)` includes that header,
`#elif __has_include(<libusb.h>)` includes that one, and otherwise
`#error "libusb headers not found"` fails the build. -/
def shimSelect (hasLibusb10 hasLibusb : Bool) : ShimResult :=
  if hasLibusb10 then .incl "libusb-1.0/libusb.h"
  else if hasLibusb then .incl "libusb.h"
  else .buildError "libusb headers not found"

/-- A header file with an include guard: the guard macro name and the
declarations the guarded body emits. -/
structure Header where
  guardMacro : String
  body : List String
deriving DecidableEq, Repr

/-- `shim.h` as a guarded header: guard `CLibUSB_shim`, body the
conditional inclusion of the system libusb header. -/
def shimHeader : Header :=
  ⟨"CLibUSB_shim", ["conditional include of system libusb header"]⟩

/-- `LibUSBBridge.h` as a guarded header: guard `LibUSBBridge_h`, body
its typedefs, macros and prototypes. -/
def bridgeHeader : Header :=
  ⟨"LibUSBBridge_h",
    bridgeTypedefs ++ bridgeMacros.map Prod.fst ++ bridgeDecls.map FunDecl.name⟩

/-- One textual inclusion of a guarded header in a translation unit:
given the set of already-defined macros, if the guard is already
defined the body is skipped and nothing is emitted; otherwise the guard
is defined and the body's declarations are emitted.  This is exactly
the `#ifndef G` / `#define G` / body / `#endif` pattern of both
headers. -/
def processInclude (h : Header) (defined : List String) :
    List String × List String :=
  if h.guardMacro ∈ defined then (defined, [])
  else (h.guardMacro :: defined, h.body)

/-- `n` successive textual inclusions of the same guarded header,
threading the macro state and concatenating the emitted
declarations. -/
def processIncludes (h : Header) : Nat → List String → List String × List String
  | 0, defined => (defined, [])
  | n + 1, defined =>
      let r1 := processInclude h defined
      let r2 := processIncludes h n r1.1
      (r2.1, r1.2 ++ r2.2)

/-- Once the guard macro is defined, any further inclusions of the
header emit nothing and leave the macro state unchanged. -/
theorem processIncludes_guarded (h : Header) (n : Nat) (d : List String)
    (hg : h.guardMacro ∈ d) : processIncludes h n d = (d, []) := by
  induction n with
  | zero => rfl
  | succ n ih =>
      simp only [processIncludes, processInclude, if_pos hg, ih,
        List.nil_append]

end CLibUSB

open CLibUSB

/-- C1: the claim fails on the code.  The header defines
`LIBUSB_ERROR_PIPE` as `-8`, but libusb 1.0 publishes `-9` for
`LIBUSB_ERROR_PIPE` (`-8` is `LIBUSB_ERROR_OVERFLOW`'s published
value), so the header's constant table does not match libusb
bit-for-bit and link-time substitution would mistranslate pipe errors
as overflow; every constant other than `LIBUSB_ERROR_PIPE` does match
its published value. -/
theorem C1_pipe_value_diverges :
    macroValue "LIBUSB_ERROR_PIPE" = some (-8)
    ∧ publishedValue "LIBUSB_ERROR_PIPE" = some (-9)
    ∧ enumValue "LIBUSB_ERROR_PIPE" = some (-9)
    ∧ enumValue "LIBUSB_ERROR_OVERFLOW" = some (-8)
    ∧ bridgeMacros ≠ libusbPublishedMacros
    ∧ bridgeMacros.filter (fun p => p.1 ≠ "LIBUSB_ERROR_PIPE") =
        libusbPublishedMacros.filter (fun p => p.1 ≠ "LIBUSB_ERROR_PIPE") := by
  decide

/-- C2 counterexample: not every function declared in the bridge
header returns an integer return code — `libusb_exit` is declared in
the header with return type `void`, which is not `int` (and
`libusb_open_device_with_vid_pid` returns a pointer). -/
theorem C2_counterexample :
    (FunDecl.mk "libusb_exit" CType.void
        [("ctx", CType.ptr (CType.structRef "libusb_context"))]) ∈ bridgeDecls
    ∧ CType.void ≠ CType.int
    ∧ ¬ bridgeDecls.all (fun d => d.ret = CType.int) := by decide

/-- C2 (amended): eight of the eleven declared functions return an
`int` status code — `libusb_init`, the three kernel-driver calls, the
two interface calls, `libusb_interrupt_transfer` and
`libusb_reset_device` — while `libusb_exit` and `libusb_close` return
`void` and `libusb_open_device_with_vid_pid` returns a device-handle
pointer; no declared function has any other result type. -/
theorem C2_return_conventions :
    (bridgeDecls.filter (fun d => d.ret = CType.int)).map FunDecl.name =
      [ "libusb_init", "libusb_kernel_driver_active",
        "libusb_detach_kernel_driver", "libusb_attach_kernel_driver",
        "libusb_claim_interface", "libusb_release_interface",
        "libusb_interrupt_transfer", "libusb_reset_device" ]
    ∧ (bridgeDecls.filter (fun d => d.ret = CType.void)).map FunDecl.name =
      ["libusb_exit", "libusb_close"]
    ∧ (bridgeDecls.filter (fun d =>
        d.ret = CType.ptr (CType.structRef "libusb_device_handle"))).map
          FunDecl.name =
      ["libusb_open_device_with_vid_pid"]
    ∧ bridgeDecls.all (fun d =>
        d.ret = CType.int ∨ d.ret = CType.void
        ∨ d.ret = CType.ptr (CType.structRef "libusb_device_handle")) := by
  decide

/-- C3: the shim selects headers by exact precedence — whenever
`<libusb-1.0/libusb.h>` is available it is included (regardless of the
other header), otherwise `<libusb.h>` is included when available, and
when neither is present the build fails with an error. -/
theorem C3_shim_precedence :
    shimSelect true true = ShimResult.incl "libusb-1.0/libusb.h"
    ∧ shimSelect true false = ShimResult.incl "libusb-1.0/libusb.h"
    ∧ shimSelect false true = ShimResult.incl "libusb.h"
    ∧ shimSelect false false =
        ShimResult.buildError "libusb headers not found" := by decide

/-- C4: the bridge header declares exactly the listed libusb 1.0
subset — init/exit, open-by-VID/PID/close, kernel-driver
query/detach/attach, interface claim/release, interrupt transfer, and
device reset — each with libusb's exact symbol name, return type and
parameter shape, and nothing else. -/
theorem C4_api_subset :
    bridgeDecls.map FunDecl.shape = libusbPublishedAPI := by decide

/-- C5: the error-kind constants are exactly eleven — I/O, invalid
parameter, access denied, no device, not found, busy, timeout, pipe,
interrupted, no memory, not supported — and each one's value in the
`#define` table is strictly negative, hence distinct from the success
value 0. -/
theorem C5_eleven_negative_errors :
    bridgeErrorNames.length = 11
    ∧ bridgeErrorNames.all (fun n =>
        match macroValue n with
        | some v => v < 0 ∧ v ≠ 0
        | none => False)
    ∧ macroValue "LIBUSB_SUCCESS" = some 0 := by decide

/-- C6: exactly three opaque handle types — `libusb_context`,
`libusb_device`, `libusb_device_handle` — are forward-declared, none
receives a struct body anywhere in the repository, and every prototype
mentions them only behind a pointer (never as a bare struct value), so
the declared surface can only pass handles through as pointers. -/
theorem C6_opaque_handles :
    bridgeTypedefs.length = 3
    ∧ bridgeTypedefs = ["libusb_context", "libusb_device", "libusb_device_handle"]
    ∧ bridgeStructDefs = []
    ∧ bridgeDecls.all (fun d =>
        d.ret.bareStruct = false
        ∧ d.params.all (fun p => p.2.bareStruct = false)
        ∧ (d.ret.structNames
            ++ (d.params.map (fun p => p.2.structNames)).flatten).all
              (fun n => n ∈ bridgeTypedefs)) := by decide

/-- C7: the interrupt transfer is a single declaration,
`libusb_interrupt_transfer`, returning `int` and taking a device
handle, an endpoint byte, a data buffer with its `int` length, an
`int*` out-parameter for the actual transferred length, and an
`unsigned int` caller-specified timeout — libusb 1.0's blocking
interrupt-transfer signature. -/
theorem C7_interrupt_transfer_signature :
    (bridgeDecls.filter (fun d => d.name = "libusb_interrupt_transfer")) =
      [ ⟨"libusb_interrupt_transfer", .int,
          [("dev_handle", .ptr (.structRef "libusb_device_handle")),
           ("endpoint", .uchar),
           ("data", .ptr .uchar),
           ("length", .int),
           ("actual_length", .ptr .int),
           ("timeout", .uint)] ⟩ ]
    ∧ (⟨"libusb_interrupt_transfer", .int,
          [("dev_handle", .ptr (.structRef "libusb_device_handle")),
           ("endpoint", .uchar),
           ("data", .ptr .uchar),
           ("length", .int),
           ("actual_length", .ptr .int),
           ("timeout", .uint)] ⟩ : FunDecl).shape ∈ libusbPublishedAPI := by
  decide

/-- C8: `LIBUSB_SUCCESS` and the eleven `LIBUSB_ERROR_*` constants are
pairwise distinct — their twelve values have no duplicate — so a
return code maps to at most one enumerated kind. -/
theorem C8_codes_pairwise_distinct :
    (("LIBUSB_SUCCESS" :: bridgeErrorNames).map macroValue).Nodup
    ∧ ("LIBUSB_SUCCESS" :: bridgeErrorNames).length = 12 := by decide

/-- C9 counterexample: the claim misidentifies the value -9 as
libusb's `LIBUSB_ERROR_OVERFLOW`; in libusb 1.0's published error
enum, -9 is the value of `LIBUSB_ERROR_PIPE`, while
`LIBUSB_ERROR_OVERFLOW`'s published value is -8, not -9. -/
theorem C9_counterexample :
    enumValue "LIBUSB_ERROR_OVERFLOW" = some (-8)
    ∧ enumValue "LIBUSB_ERROR_OVERFLOW" ≠ some (-9)
    ∧ enumValue "LIBUSB_ERROR_PIPE" = some (-9) := by decide

/-- C9 (amended): the error values given a named constant in the
header are exactly -1 through -8 and -10 through -12, in that source
order; the values -9 (libusb's published `LIBUSB_ERROR_PIPE`) and -99
(libusb's published `LIBUSB_ERROR_OTHER`) have no constant here — the
header instead assigns -8, libusb's published `LIBUSB_ERROR_OVERFLOW`
value, to its own `LIBUSB_ERROR_PIPE` constant — so a declared
function may return a negative code for which this binding defines no
name. -/
theorem C9_named_error_values :
    bridgeErrorNames.map macroValue =
      [some (-1), some (-2), some (-3), some (-4), some (-5), some (-6),
       some (-7), some (-8), some (-10), some (-11), some (-12)]
    ∧ some (-9) ∉ bridgeErrorNames.map macroValue
    ∧ some (-99) ∉ bridgeErrorNames.map macroValue
    ∧ bridgeMacros.all (fun p => p.2 ≠ -9 ∧ p.2 ≠ -99)
    ∧ enumValue "LIBUSB_ERROR_PIPE" = some (-9)
    ∧ enumValue "LIBUSB_ERROR_OTHER" = some (-99)
    ∧ macroValue "LIBUSB_ERROR_PIPE" = enumValue "LIBUSB_ERROR_OVERFLOW" := by
  decide

/-- C10: both headers are wrapped in include guards, and inclusion is
idempotent — textually including `shim.h` or `LibUSBBridge.h` any
positive number of times in one translation unit emits exactly the
declarations of a single inclusion, with no redefinition. -/
theorem C10_include_guard_idempotent :
    (∀ n : Nat,
      (processIncludes shimHeader (n + 1) []).2 = shimHeader.body
      ∧ (processIncludes bridgeHeader (n + 1) []).2 = bridgeHeader.body)
    ∧ shimHeader.guardMacro = "CLibUSB_shim"
    ∧ bridgeHeader.guardMacro = "LibUSBBridge_h" := by
  refine ⟨fun n => ⟨?_, ?_⟩, rfl, rfl⟩
  · show (processIncludes shimHeader (n + 1) []).2 = shimHeader.body
    simp only [processIncludes, processInclude]
    rw [if_neg (by simp)]
    rw [processIncludes_guarded shimHeader n _ (by simp)]
    simp
  · show (processIncludes bridgeHeader (n + 1) []).2 = bridgeHeader.body
    simp only [processIncludes, processInclude]
    rw [if_neg (by simp)]
    rw [processIncludes_guarded bridgeHeader n _ (by simp)]
    simp
